import Mathlib

/-!
Shallow embedding of the `arxiv2poster` repository (deep-diver/arxiv2poster):
`pdf_processor.py`, `poster_generator.py` and `cli.py`, with the external
collaborators (arXiv download, Gemini upload/generate/delete, the filesystem)
modelled as explicit environments.  Remote interactions are recorded as traces
so that resource-cleanup and call-count properties can be stated.
-/

namespace ArxivPoster

/-- Python truthiness of an optional string (`if s:`): `None` and `""` are falsy. -/
def strTruthy : Option String → Bool
  | none => false
  | some s => s != ""

/-- Python `a or b` on optional strings (first operand wins when truthy). -/
def pyOr (a b : Option String) : Option String :=
  if strTruthy a then a else b

/-- Executable infix (contiguous-substring) test on lists. -/
def listInfixOf : List Char → List Char → Bool
  | sub, [] => sub.isEmpty
  | sub, x :: t => sub.isPrefixOf (x :: t) || listInfixOf sub t

/-- Python `sub in s` substring containment on strings. -/
def pyIn (sub s : String) : Bool :=
  listInfixOf sub.toList s.toList

/-- Python `s.lower()` (character-wise; ASCII model, as elsewhere). -/
def pyLower (s : String) : String := String.mk (s.toList.map Char.toLower)

/-- Python `s.upper()` (character-wise; ASCII model). -/
def pyUpper (s : String) : String := String.mk (s.toList.map Char.toUpper)

/-- Python `s.strip()`: remove leading and trailing whitespace. -/
def pyStrip (s : String) : String :=
  String.mk (((s.toList.dropWhile Char.isWhitespace).reverse.dropWhile
    Char.isWhitespace).reverse)

/-- Python `s.startswith(pre)`. -/
def pyStartsWith (pre s : String) : Bool := pre.toList.isPrefixOf s.toList

/-- Python `s.replace(old, new)` for a one-character pattern (the only use in the
source is `.replace(' ', '_')`). -/
def pyReplaceChar (s : String) (old new : Char) : String :=
  String.mk (s.toList.map (fun c => if c = old then new else c))

/-- Python `s.split(sep)` for a one-character separator (the only use in the
source is `.split('/')`). -/
def splitOnChar (sep : Char) : List Char → List (List Char)
  | [] => [[]]
  | c :: t =>
    if c = sep then [] :: splitOnChar sep t
    else
      match splitOnChar sep t with
      | h :: r => (c :: h) :: r
      | [] => [[c]]

/-- Python `sep.join(parts)`. -/
def joinWith (sep : String) : List String → String
  | [] => ""
  | [x] => x
  | x :: y :: xs => x ++ sep ++ joinWith sep (y :: xs)

/-! ## pdf_processor.py -/

/-- Regex `\w` character class (`re` word character), modelled over ASCII. -/
def isWordChar (c : Char) : Bool := c.isAlphanum || c == '_'

/-- Regex `\s` character class (`re` whitespace), modelled over ASCII. -/
def isSpaceChar (c : Char) : Bool :=
  c == ' ' || c == '\t' || c == '\n' || c == '\r' || c == '\x0b' || c == '\x0c'

/-- Greedy continuation of the pattern `\b[A-Z][a-z]+(?:\s+[A-Z][a-z]+)*\b` after an
initial `[A-Z][a-z]+` has been consumed: `contMatch l` returns `some ext` where `ext`
is the further text consumed by the starred group subject to the trailing word
boundary (backtracking the star when the boundary fails), or `none` when no split
satisfies the boundary.  The unconsumed remainder is `l.drop ext.length`.
Recursion is structural on `fuel` so the kernel can evaluate it: every recursive
call consumes at least two characters of `l`, so with `fuel > l.length` the
zero-fuel branch is unreachable. -/
def contMatch (fuel : Nat) (l : List Char) : Option (List Char) :=
  match fuel with
  | 0 => none
  | fuel + 1 =>
    match l with
    | [] => some []
    | c :: cs =>
      if isWordChar c then none
      else if isSpaceChar c then
        match cs.dropWhile isSpaceChar with
        | [] => some []
        | d :: ds =>
          if d.isUpper then
            if (ds.takeWhile Char.isLower).isEmpty then some []
            else
              match contMatch fuel (ds.dropWhile Char.isLower) with
              | some ext2 =>
                  some ((c :: cs.takeWhile isSpaceChar) ++ (d :: ds.takeWhile Char.isLower) ++ ext2)
              | none => some []
          else some []
      else some []

/-- Left-to-right scan modelling `re.findall(r"\b[A-Z][a-z]+(?:\s+[A-Z][a-z]+)*\b", text)`:
at each position with a word boundary and an uppercase letter, match greedily and
continue after the match; otherwise advance one character.  `prevIsWord` carries
whether the preceding character is a word character (the boundary context);
`fuel` makes the recursion structural (each step consumes at least one character,
so `fuel > l.length` never exhausts). -/
def scanWords (fuel : Nat) (prevIsWord : Bool) (l : List Char) : List (List Char) :=
  match fuel with
  | 0 => []
  | fuel + 1 =>
    match l with
    | [] => []
    | c :: cs =>
      if !prevIsWord && c.isUpper then
        if (cs.takeWhile Char.isLower).isEmpty then scanWords fuel (isWordChar c) cs
        else
          match contMatch (fuel + 1) (cs.dropWhile Char.isLower) with
          | some ext =>
              (c :: (cs.takeWhile Char.isLower ++ ext)) ::
                scanWords fuel true ((cs.dropWhile Char.isLower).drop ext.length)
          | none => scanWords fuel (isWordChar c) cs
      else scanWords fuel (isWordChar c) cs

/-- `words = re.findall(r"\b[A-Z][a-z]+(?:\s+[A-Z][a-z]+)*\b", text)` in
`extract_key_concepts` (character classes modelled over ASCII). -/
def findCapitalizedPhrases (text : String) : List String :=
  (scanWords (text.toList.length + 1) false text.toList).map (fun w => String.mk w)

/-- The stoplist `common_words` of `extract_key_concepts`. -/
def common_words : List String :=
  ["The", "This", "We", "Our", "These", "That", "In", "On", "At", "For", "With"]

/-- The comprehension filter of `extract_key_concepts`:
`w not in common_words and len(w) > 3`. -/
def conceptKeep (w : String) : Bool :=
  !(common_words.contains w) && decide (3 < w.length)

/-- `list(dict.fromkeys(...))`: deduplication keeping first occurrences, with the
already-seen keys as accumulator. -/
def dedupFirstAux (seen : List String) : List String → List String
  | [] => []
  | x :: xs => if x ∈ seen then dedupFirstAux seen xs else x :: dedupFirstAux (x :: seen) xs

/-- `list(dict.fromkeys(concepts))` from `extract_key_concepts`. -/
def dedupFirst (l : List String) : List String := dedupFirstAux [] l

/-- The list `unique_concepts` of `extract_key_concepts`:
filtered, first-occurrence-deduplicated, truncated to `max_concepts`. -/
def unique_concepts (text : String) (max_concepts : Nat) : List String :=
  (dedupFirst ((findCapitalizedPhrases text).filter conceptKeep)).take max_concepts

/-- `extract_key_concepts(text, max_concepts)` from `pdf_processor.py` (the Python
default for `max_concepts` is 5). -/
def extract_key_concepts (text : String) (max_concepts : Nat) : String :=
  let u := unique_concepts text max_concepts
  if u.isEmpty then "Research, Machine Learning, Deep Learning"
  else joinWith ", " u

/-- Metadata dictionary returned by `download_arxiv_pdf` as consumed by
`extract_paper_info` (`.get` with defaults is modelled by optional fields). -/
structure ArxivMetadata where
  title : Option String
  authors : List String
  summary : Option String
deriving DecidableEq, Repr

/-- The dictionary returned by `extract_paper_info`. -/
structure PaperInfo where
  title : String
  abstract : String
  key_concepts : String
  authors : String
deriving DecidableEq, Repr

/-- `extract_paper_info(pdf_path, metadata)` from `pdf_processor.py`. -/
def extract_paper_info (pdf_path : String) (metadata : ArxivMetadata) : PaperInfo :=
  let title := metadata.title.getD ""
  let abstract := metadata.summary.getD ""
  let key_concepts := extract_key_concepts abstract 5
  { title := title
    abstract := abstract.take 1000
    key_concepts := key_concepts
    authors := joinWith ", " (metadata.authors.take 3) }

/-! ## poster_generator.py

The Gemini client is modelled as an environment `GenEnv` fixing the outcome of
each remote call; `generate_poster` returns its Python result (normal return or
raised exception) together with the ordered trace of remote calls it performed. -/

/-- A handle returned by `client.files.upload` (`.name` addresses the asset for
deletion, `.uri` is attached to request contents). -/
structure FileHandle where
  name : String
  uri : String
deriving DecidableEq, Repr

/-- A Python exception: its class name and its message (`str(e)`). -/
structure PyExn where
  ty : String
  msg : String
deriving DecidableEq, Repr

instance {α β : Type} [DecidableEq α] [DecidableEq β] : DecidableEq (Except α β) := fun x y =>
  match x, y with
  | .error a, .error b =>
      if h : a = b then isTrue (by rw [h]) else isFalse (by simp [h])
  | .ok a, .ok b =>
      if h : a = b then isTrue (by rw [h]) else isFalse (by simp [h])
  | .error _, .ok _ => isFalse (by simp)
  | .ok _, .error _ => isFalse (by simp)

/-- A part of the generation response; `as_image()` succeeds exactly on image parts. -/
inductive RPart where
  | text (s : String)
  | image (data : String)
deriving DecidableEq, Repr

/-- `part.as_image()`. -/
def RPart.asImage : RPart → Option String
  | .text _ => none
  | .image d => some d

/-- An element of the `contents` list sent to `generate_content`. -/
inductive ContentPart where
  | fileData (fileUri : String) (mimeType : String)
  | text (s : String)
deriving DecidableEq, Repr

/-- The `image_config_params` dictionary (aspect ratio always present, `imageSize`
only for the Pro model). -/
structure ImageConfigParams where
  aspectRatio : String
  imageSize : Option String
deriving DecidableEq, Repr

/-- One remote interaction with the Gemini service. -/
inductive RemoteAction where
  | uploadFile (file : String) (mimeType : String)
  | generateContent (model : String) (contents : List ContentPart)
      (responseModalities : List String) (imageConfig : ImageConfigParams)
  | deleteFile (name : String)
deriving DecidableEq, Repr

/-- Whether a remote action is a file deletion. -/
def RemoteAction.isDeleteFile : RemoteAction → Bool
  | .deleteFile _ => true
  | _ => false

/-- Environment fixing the process environment variables and the outcome of every
remote call `generate_poster` may attempt.  Deletion outcomes are recorded even
though the code swallows them (`except: pass`). -/
structure GenEnv where
  geminiApiKeyEnv : Option String
  googleApiKeyEnv : Option String
  uploadPdfResult : Except String FileHandle
  uploadPosterResult : Except String FileHandle
  generateResult : Except PyExn (List RPart)
  deletePdfOk : Bool
  deletePosterOk : Bool

/-- Result of `generate_poster`: the returned path or the raised exception, plus
the ordered trace of remote calls. -/
structure GenOutcome where
  result : Except PyExn String
  actions : List RemoteAction
deriving DecidableEq, Repr

/-- The `api_key` resolution at the top of `generate_poster`
(`if api_key is None: api_key = os.getenv("GEMINI_API_KEY") or os.getenv("GOOGLE_API_KEY")`). -/
def resolvedApiKey (api_key : Option String) (env : GenEnv) : Option String :=
  match api_key with
  | none => pyOr env.geminiApiKeyEnv env.googleApiKeyEnv
  | some k => some k

/-- Aspect-ratio derivation of `generate_poster` (side-by-side ratios when a side
panel is requested, standard poster ratios otherwise). -/
def deriveAspectRatio (side_panel : Option String) (orientation : String) : String :=
  if strTruthy side_panel then
    if orientation = "landscape" then "21:9" else "4:3"
  else
    if orientation = "landscape" then "3:2" else "3:4"

/-- The `ordering_principle` text selected for `orientation == "landscape"`. -/
def ordering_principle_landscape : String :=
  "- Sections must follow column-first ordering principle: read top to bottom within each column, then move to the next column (left to right)\n- Example to illustrate the principle (NOT a strict template):\n  If using 3 columns with 2 rows: Column 1 (top→bottom), Column 2 (top→bottom), Column 3 (top→bottom)\n  Reading flows vertically down each column before moving to the next column\n- Adapt the layout to fit the content naturally while maintaining column-first ordering"

/-- The `ordering_principle` text selected for portrait orientation. -/
def ordering_principle_portrait : String :=
  "- Sections must follow row-first ordering principle: read left to right within each row, then move to the next row (top to bottom)\n- Example to illustrate the principle (NOT a strict template):\n  If using 2 rows with 3 columns: Row 1 (left→right), Row 2 (left→right)\n  Reading flows horizontally across each row before moving to the next row\n- Adapt the layout to fit the content naturally while maintaining row-first ordering"

/-- Orientation-dependent selection of the ordering principle. -/
def orderingPrinciple (orientation : String) : String :=
  if orientation = "landscape" then ordering_principle_landscape
  else ordering_principle_portrait

/-- The `whatif_section` of the prompt (`if whatif_text:` truthiness). -/
def whatifSection (whatif_text : Option String) : String :=
  if strTruthy whatif_text then
    "\nWHAT IF IDEA TO INCORPORATE:\n- The user wants to explore: \"" ++ whatif_text.getD "" ++ "\"\n- This is a new idea or variation to add on top of the existing research work\n- Incorporate this \"what if\" concept into the poster while maintaining the core research content\n- Show how this idea relates to or extends the existing work\n- Make it visually clear that this is an extension or variation of the original research\n- The poster should reflect both the original paper content AND this new \"what if\" idea\n"
  else ""

/-- The four side-panel-dependent prompt components set by the
`if side_panel == "qa": ... elif side_panel: ... else: ...` chain. -/
structure SidePanelPieces where
  layout_structure : String
  side_panel_section : String
  layout_note : String
  side_panel_description : String
deriving DecidableEq, Repr

/-- The `layout_structure` literal shared by the `elif side_panel:` and `else:`
branches (the single full-width poster layout). -/
def fullWidthLayoutStructure : String :=
  "LAYOUT STRUCTURE:\nThe image is a single, full-width academic poster:"

/-- The side-panel-dependent prompt components of `generate_poster`. -/
def sidePanelPieces (side_panel : Option String) : SidePanelPieces :=
  if side_panel = some "qa" then
    { layout_structure := "LAYOUT STRUCTURE:\nThe image must be divided into TWO DISTINCT SECTIONS side by side:\n\nLEFT SIDE (60-65% of width): ACADEMIC POSTER"
      side_panel_section := "\nRIGHT SIDE (35-40% of width): Q&A CHAT INTERFACE\n- Design a modern chat interface/messaging app style box\n- Include a chat header/title area (e.g., \"Questions & Answers\" or \"Q&A About This Paper\")\n- Display up to 4 common questions and answers about the paper in a chat bubble format (maximum 4 Q&A pairs total)\n- Questions should appear as user messages (typically on the right, different color/style)\n- Answers should appear as assistant/bot messages (typically on the left, different color/style)\n- Use chat bubble design with rounded corners, appropriate colors, and clear visual distinction\n- Questions should cover: methodology, key findings, applications, limitations, contributions\n- Answers should be concise, informative, and directly address the questions\n- Include scrollable chat appearance or multiple visible Q&A pairs\n- Make it look like a real chat interface (modern, clean, professional)\n\nVISUAL SEPARATION:\n- Use a clear vertical divider or visual separator between the two sections\n- Can use a subtle border, different background colors, or shadow effects\n- Ensure both sections are visually distinct but harmoniously integrated"
      layout_note := "Side-by-side design with Q&A chat interface"
      side_panel_description := "Q&A chat interface" }
  else if strTruthy side_panel then
    -- `elif side_panel:` - unknown side-panel types fall through to the
    -- full-width layout text
    { layout_structure := fullWidthLayoutStructure
      side_panel_section := ""
      layout_note := "Full-width poster layout"
      side_panel_description := "" }
  else
    { layout_structure := fullWidthLayoutStructure
      side_panel_section := ""
      layout_note := "Full-width poster layout"
      side_panel_description := "" }

/-- The Q&A content-requirements block inserted only when `side_panel == "qa"`. -/
def qaContentBlock (side_panel : Option String) : String :=
  if side_panel = some "qa" then
    "\nQ&A CONTENT REQUIREMENTS (Right Side):\n- Generate realistic, common questions that researchers or readers would ask about this paper\n- Questions should be specific to the paper's content, methodology, and findings\n- Answers should be accurate, concise, and directly based on the paper's content\n- Cover diverse aspects: technical details, practical applications, limitations, future work\n- Make Q&As informative and valuable for understanding the paper\n"
  else ""

/-- The chat-styling bullet of the IMPORTANT section (only for `side_panel == "qa"`). -/
def qaChatStyleLine (side_panel : Option String) : String :=
  if side_panel = some "qa" then
    "- The Q&A side should look like a real, modern chat interface with proper chat bubble styling."
  else ""

/-- The final bullet of the IMPORTANT section (two-sided wording for `"qa"`,
essence wording otherwise). -/
def finalEssenceLine (side_panel : Option String) : String :=
  if side_panel = some "qa" then
    "- Both sides should work together as a cohesive single image that provides both visual poster information and interactive Q&A content."
  else
    "- The poster should convey the essence of the research quickly and effectively."

/-- The `" and side panel content"` clause of the Language line
(`{" and side panel content" if side_panel else ""}`). -/
def languagePanelClause (side_panel : Option String) : String :=
  if strTruthy side_panel then " and side panel content" else ""

/-- The full `poster_prompt` f-string of `generate_poster`. -/
def posterPrompt (orientation aspect_ratio resolution model language : String)
    (side_panel whatif_text existing_poster_path : Option String) : String :=
  let pieces := sidePanelPieces side_panel
  let is_whatif := whatif_text.isSome && existing_poster_path.isSome
  let variation_note := if is_whatif then " (variation incorporating a 'what if' idea)" else ""
  let side_panel_note :=
    if pieces.side_panel_description != "" then " with " ++ pieces.side_panel_description else ""
  let resolution_text := if model = "pro" then "- Resolution: " ++ resolution ++ "\n" else ""
  "\nCreate an academic poster" ++ side_panel_note ++ variation_note ++
  " for this research paper.\n" ++
  whatifSection whatif_text ++ "\n" ++
  pieces.layout_structure ++
  "\n- Traditional academic poster layout with all key research information\n- Use a clear grid-based layout with well-defined sections\n- The number of sections, rows, and columns should be determined by the content and what makes sense for the paper\n" ++
  orderingPrinciple orientation ++
  "\n- Ensure proper spacing between elements\n- Organize content in logical flow\n- Use visual separators to distinguish sections\n- Maintain consistent margins and padding\n- Ensure text blocks are properly aligned\n" ++
  pieces.side_panel_section ++
  "\n\nPOSTER SPECIFICATIONS:\n- Orientation: " ++ pyUpper orientation ++ " (" ++
  aspect_ratio ++ " aspect ratio)\n" ++
  resolution_text ++
  "- Language: Generate all content (poster text" ++ languagePanelClause side_panel ++
  ", labels) in " ++ language ++ "\n- Overall Layout: " ++ pieces.layout_note ++ "\n" ++
  "\nLEFT SIDE - POSTER DESIGN APPROACH:\n- Visually appealing with title prominently displayed\n- Clean, professional design with good typography and visual hierarchy\n- Suitable for academic presentation and readable from a distance\n- Focus on insights and key information, not lengthy descriptions\n" ++
  "\nPOSTER CONTENT STRATEGY:\n- **Title**: Large, bold, prominent\n- **Key Insights**: Focus on main contributions and findings (not detailed descriptions)\n- **Visual Elements**: Include important figures, diagrams, and visual elements from the paper\n- **Methodology**: Highlight the approach, not exhaustive details\n- **Results**: Emphasize key results and conclusions with visual emphasis\n- **Takeaways**: Make insights clear and immediately understandable\n" ++
  qaContentBlock side_panel ++
  "\nIMPORTANT: \n- The poster should prioritize visual communication over text. Use insights, highlights, and key points rather than descriptive paragraphs.\n" ++
  qaChatStyleLine side_panel ++ "\n" ++
  finalEssenceLine side_panel ++ "\n"

/-- The textual instruction appended after the reference-poster part. -/
def referenceInstruction : String :=
  "\nREFERENCE: The uploaded image above is the existing poster. Use it as a reference and incorporate the 'what if' idea while maintaining the overall structure and style.\n"

/-- `image_config_params`: `{"aspectRatio": ...}` plus `imageSize` only for `"pro"`. -/
def imageConfigParams (model resolution aspect_ratio : String) : ImageConfigParams :=
  { aspectRatio := aspect_ratio
    imageSize := if model = "pro" then some resolution else none }

/-- The credential-marker test of the generation `except` clause:
`"API key" in msg or "API_KEY" in msg or "expired" in msg.lower()`. -/
def isApiKeyError (error_msg : String) : Bool :=
  pyIn "API key" error_msg || pyIn "API_KEY" error_msg || pyIn "expired" (pyLower error_msg)

/-- The `contents` list sent to `generate_content`: the PDF part, then (when the
reference poster was uploaded and its URI is truthy) the poster part and the
reference instruction, then the prompt text. -/
def requestContents (uploaded_pdf : FileHandle) (uploaded_poster : Option FileHandle)
    (poster_prompt : String) : List ContentPart :=
  let poster_uri := uploaded_poster.map (fun up => up.uri)
  [ContentPart.fileData uploaded_pdf.uri "application/pdf"]
  ++ (if strTruthy poster_uri then
        [ContentPart.fileData (poster_uri.getD "") "image/png",
         ContentPart.text referenceInstruction]
      else [])
  ++ [ContentPart.text poster_prompt]

/-- Lines 116-296 of `generate_poster`: prompt construction, contents assembly,
the generation call guarded by `try/except/finally` (the `finally` best-effort
deletes, swallowing failures), and image extraction.  `actsSoFar` is the trace
of the uploads already performed. -/
def generateContentStep (env : GenEnv) (uploaded_pdf : FileHandle)
    (uploaded_poster : Option FileHandle)
    (api_model aspect_ratio orientation resolution model language : String)
    (side_panel whatif_text existing_poster_path : Option String)
    (output_path : String) (actsSoFar : List RemoteAction) : GenOutcome :=
  let poster_prompt :=
    posterPrompt orientation aspect_ratio resolution model language
      side_panel whatif_text existing_poster_path
  let contents := requestContents uploaded_pdf uploaded_poster poster_prompt
  let image_config := imageConfigParams model resolution aspect_ratio
  let genAct := RemoteAction.generateContent api_model contents ["TEXT", "IMAGE"] image_config
  -- the `finally` block runs on every branch of the generation call, so the
  -- trace is the same whether the call raises or returns
  let cleanup :=
    RemoteAction.deleteFile uploaded_pdf.name ::
      (match uploaded_poster with
       | some up => [RemoteAction.deleteFile up.name]
       | none => [])
  let actions := actsSoFar ++ [genAct] ++ cleanup
  let result : Except PyExn String :=
    match env.generateResult with
    | .error e =>
        if isApiKeyError e.msg then
          .error ⟨"ValueError",
            "API key error: " ++ e.msg ++
            "\nPlease check that your GEMINI_API_KEY or GOOGLE_API_KEY is valid and not expired."⟩
        else .error e
    | .ok parts =>
        match parts.findSome? RPart.asImage with
        | some _ => .ok output_path
        | none => .error ⟨"RuntimeError", "No image was generated in the API response"⟩
  { result := result, actions := actions }

/-- `generate_poster` from `poster_generator.py`, over the remote-call
environment `env`.  The `paper_info` argument is accepted but (as in the
source) never used by the prompt; the local `image.save(output_path)` effect is
represented by the returned path. -/
def generate_poster (env : GenEnv) (pdf_path : String) (paper_info : PaperInfo)
    (orientation resolution model language : String)
    (side_panel whatif_text existing_poster_path api_key : Option String)
    (output_path : String) : GenOutcome :=
  let api_key0 := resolvedApiKey api_key env
  if !(strTruthy api_key0) then
    { result := .error ⟨"ValueError",
        "API key not provided. Set GEMINI_API_KEY or GOOGLE_API_KEY environment variable, or pass --api-key argument."⟩
      actions := [] }
  else if !(model = "pro" || model = "flash" : Bool) then
    { result := .error ⟨"ValueError", "Invalid model: " ++ model ++ ". Must be 'pro' or 'flash'"⟩
      actions := [] }
  else
    let api_model := if model = "pro" then "gemini-3-pro-image-preview" else "gemini-2.5-flash-image"
    let aspect_ratio := deriveAspectRatio side_panel orientation
    match env.uploadPdfResult with
    | .error e =>
        { result := .error ⟨"RuntimeError", "Failed to upload PDF file: " ++ e⟩
          actions := [.uploadFile pdf_path "application/pdf"] }
    | .ok uploaded_pdf =>
        if strTruthy existing_poster_path then
          match env.uploadPosterResult with
          | .error e =>
              { result := .error ⟨"RuntimeError", "Failed to upload existing poster image: " ++ e⟩
                actions := [.uploadFile pdf_path "application/pdf",
                            .uploadFile (existing_poster_path.getD "") "image/png"] }
          | .ok uploaded_poster =>
              generateContentStep env uploaded_pdf (some uploaded_poster)
                api_model aspect_ratio orientation resolution model language
                side_panel whatif_text existing_poster_path output_path
                [.uploadFile pdf_path "application/pdf",
                 .uploadFile (existing_poster_path.getD "") "image/png"]
        else
          generateContentStep env uploaded_pdf none
            api_model aspect_ratio orientation resolution model language
            side_panel whatif_text existing_poster_path output_path
            [.uploadFile pdf_path "application/pdf"]

/-! ## cli.py

The batch driver.  The filesystem (used only to test existence of poster files)
and the two remote collaborators are modelled by `CliEnv`; console printing and
local temp-file removal are I/O decoration and are not modelled, but every
remote call is recorded in the per-identifier trace. -/

/-- `normalize_arxiv_id` from `cli.py`. -/
def normalize_arxiv_id (arxiv_id : String) : String :=
  let s := pyStrip arxiv_id
  if pyStartsWith "arxiv:" s then s.drop 6 else s

/-- The parsed command-line arguments (`argparse` namespace). -/
structure Args where
  arxiv_ids : List String
  orientation : String
  output_dir : String
  output : Option String
  model : String
  resolution : String
  language : String
  side_panel : Option String
  whatif : Option String
  api_key : Option String
  verbose : Bool
deriving Repr

/-- Environment of the batch driver: the set of existing files (paths), the
arXiv download collaborator, and the Gemini environment per identifier. -/
structure CliEnv where
  fs : List String
  download : String → Except PyExn (String × ArxivMetadata)
  genEnvOf : String → GenEnv

/-- A remote call made while processing one identifier. -/
inductive CliCall where
  | downloadPdf (arxiv_id : String)
  | remote (a : RemoteAction)
deriving DecidableEq, Repr

/-- `os.path.isabs` (POSIX model). -/
def pyIsAbs (p : String) : Bool := pyStartsWith "/" p

/-- `pathlib` `/` join (POSIX model, directory without trailing slash). -/
def pathJoin (dir file : String) : String := dir ++ "/" ++ file

/-- `clean_id = arxiv_id.split('/')[-1] if '/' in arxiv_id else arxiv_id`. -/
def cleanIdOf (arxiv_id : String) : String :=
  if pyIn "/" arxiv_id then
    ((splitOnChar '/' arxiv_id.toList).map String.mk).getLastD arxiv_id
  else arxiv_id

/-- `lang_normalized = args.language.lower().replace(' ', '_')`. -/
def langNormalized (language : String) : String :=
  pyReplaceChar (pyLower language) ' ' '_'

/-- `side_panel_suffix = args.side_panel if args.side_panel else "nopanel"`. -/
def sidePanelSuffix (side_panel : Option String) : String :=
  if strTruthy side_panel then side_panel.getD "" else "nopanel"

/-- The default output filename `poster_<id>_<orientation>_<language>_<panel>.png`. -/
def baseFilename (clean_id orientation lang_normalized side_panel_suffix : String) : String :=
  "poster_" ++ clean_id ++ "_" ++ orientation ++ "_" ++ lang_normalized ++ "_" ++
    side_panel_suffix ++ ".png"

/-- The what-if variant filename `poster_<id>_<orientation>_<language>_<panel>_var_<n>.png`. -/
def variantFilename (clean_id orientation lang_normalized side_panel_suffix : String)
    (variant_num : Nat) : String :=
  "poster_" ++ clean_id ++ "_" ++ orientation ++ "_" ++ lang_normalized ++ "_" ++
    side_panel_suffix ++ "_var_" ++ toString variant_num ++ ".png"

/-- The `while True` loop scanning for the first unused variant number, starting
at `n` and fuelled by `fuel` (the Python loop is unbounded; with fuel exceeding
the number of existing files the scan always finds a free name). -/
def firstFreeVariant (fs : List String) (mkPath : Nat → String) : Nat → Nat → Option Nat
  | 0, _ => none
  | fuel + 1, n => if mkPath n ∈ fs then firstFreeVariant fs mkPath fuel (n + 1) else some n

/-- Output-path determination for one identifier (`cli.py` lines 191-226):
default naming, the what-if base-file precondition and variant numbering, or
the custom `--output` path.  Returns the error message when the what-if base
poster is missing.  The `fuel exhausted` branch is unreachable for a finite
file listing and marks where the unbounded Python loop would scan further. -/
def computeOutputPath (fs : List String) (args : Args)
    (clean_id lang_normalized side_panel_suffix : String) : Except String String :=
  match args.output with
  | none =>
      if strTruthy args.whatif then
        let base_filename := baseFilename clean_id args.orientation lang_normalized side_panel_suffix
        let existing_poster_path := pathJoin args.output_dir base_filename
        if existing_poster_path ∈ fs then
          match firstFreeVariant fs
              (fun n => pathJoin args.output_dir
                (variantFilename clean_id args.orientation lang_normalized side_panel_suffix n))
              (fs.length + 1) 1 with
          | some n =>
              .ok (pathJoin args.output_dir
                (variantFilename clean_id args.orientation lang_normalized side_panel_suffix n))
          | none => .error "variant scan fuel exhausted"
        else
          .error ("Existing poster file not found: " ++ existing_poster_path)
      else
        .ok (pathJoin args.output_dir
          (baseFilename clean_id args.orientation lang_normalized side_panel_suffix))
  | some out =>
      if pyIsAbs out then .ok out else .ok (pathJoin args.output_dir out)

/-- Outcome of processing one identifier in the `for` loop of `main`: whether it
succeeded, the failure description (as recorded at the driver boundary), and
the remote calls made. -/
structure IdOutcome where
  ok : Bool
  errMsg : Option String
  calls : List CliCall
deriving DecidableEq, Repr

/-- One iteration of the batch loop (`cli.py` lines 182-296): output-path
determination (including the what-if precondition, which runs before any remote
call), download, metadata extraction, and the orchestrator; all failures are
caught at this boundary.  Local temp-PDF removal (line 282-286) is a local
effect and is not part of the remote-call trace. -/
def processId (env : CliEnv) (args : Args) (arxiv_id : String) : IdOutcome :=
  let clean_id := cleanIdOf arxiv_id
  let lang_normalized := langNormalized args.language
  let suffix := sidePanelSuffix args.side_panel
  match computeOutputPath env.fs args clean_id lang_normalized suffix with
  | .error msg => { ok := false, errMsg := some msg, calls := [] }
  | .ok output_path =>
      match env.download arxiv_id with
      | .error e => { ok := false, errMsg := some e.msg, calls := [CliCall.downloadPdf arxiv_id] }
      | .ok (pdf_path, metadata) =>
          let paper_info := extract_paper_info pdf_path metadata
          let existing_poster_path :=
            if strTruthy args.whatif then
              some (pathJoin args.output_dir
                (baseFilename clean_id args.orientation lang_normalized suffix))
            else none
          let g := generate_poster (env.genEnvOf arxiv_id) pdf_path paper_info
            args.orientation args.resolution args.model args.language
            args.side_panel args.whatif existing_poster_path args.api_key output_path
          let calls := CliCall.downloadPdf arxiv_id :: g.actions.map CliCall.remote
          match g.result with
          | .ok _ => { ok := true, errMsg := none, calls := calls }
          | .error e => { ok := false, errMsg := some e.msg, calls := calls }

/-- The stderr warning for `--resolution` with `--model flash` (`cli.py` line 167;
the leading warning-emoji glyph of the console text is not modelled). -/
def flashResolutionWarning : String :=
  "Warning: --resolution is ignored when using --model flash (Nano Banana doesn't support resolution)."

/-- The warnings emitted by the validation phase of `main` (line 166-167): a
warning, not an error - execution continues past it. -/
def resolutionWarnings (args : Args) : List String :=
  if args.model = "flash" ∧ args.resolution ≠ "2K" then [flashResolutionWarning] else []

/-- Result of `main`: process exit code, the success/failure tally, the
validation warnings, and each identifier's outcome in input order. -/
structure MainOutcome where
  exitCode : Nat
  successCount : Nat
  failedIds : List String
  warnings : List String
  processed : List (String × IdOutcome)
deriving DecidableEq, Repr

/-- `main` from `cli.py`: ID normalization, the two hard validations (custom
`--output` and `--whatif` are both forbidden with multiple identifiers), the
flash-resolution warning, the per-identifier loop, and the exit-code rules. -/
def main (env : CliEnv) (args : Args) : MainOutcome :=
  let arxiv_ids := args.arxiv_ids.map normalize_arxiv_id
  if arxiv_ids.length > 1 ∧ args.output.isSome then
    { exitCode := 1, successCount := 0, failedIds := [], warnings := [], processed := [] }
  else
    let warnings := resolutionWarnings args
    if strTruthy args.whatif ∧ arxiv_ids.length > 1 then
      { exitCode := 1, successCount := 0, failedIds := [], warnings := warnings, processed := [] }
    else
      let processed := arxiv_ids.map (fun i => (i, processId env args i))
      let success_count := (processed.filter (fun p => p.2.ok)).length
      let failed_ids := (processed.filter (fun p => !p.2.ok)).map (fun p => p.1)
      let exit_code :=
        if arxiv_ids.length > 1 then (if success_count = arxiv_ids.length then 0 else 1)
        else (if success_count > 0 then 0 else 1)
      { exitCode := exit_code, successCount := success_count, failedIds := failed_ids,
        warnings := warnings, processed := processed }

/-! ## Concrete fixtures used by witnesses and counterexamples -/

/-- The image-generation configurations carried by the trace's `generateContent`
calls (in order). -/
def GenOutcome.genConfigs (o : GenOutcome) : List ImageConfigParams :=
  o.actions.filterMap (fun a =>
    match a with
    | RemoteAction.generateContent _ _ _ cfg => some cfg
    | _ => none)

/-- A sample paper-info record. -/
def samplePaperInfo : PaperInfo :=
  { title := "T", abstract := "A", key_concepts := "K", authors := "U" }

/-- A Gemini environment in which every remote call succeeds. -/
def okGenEnv : GenEnv :=
  { geminiApiKeyEnv := some "k1"
    googleApiKeyEnv := none
    uploadPdfResult := .ok { name := "files/pdf1", uri := "uri-pdf-1" }
    uploadPosterResult := .ok { name := "files/img1", uri := "uri-img-1" }
    generateResult := .ok [RPart.text "caption", RPart.image "img-bytes"]
    deletePdfOk := true
    deletePosterOk := true }

/-- A Gemini environment in which the PDF upload succeeds but the
reference-poster upload fails. -/
def posterUploadFailEnv : GenEnv :=
  { geminiApiKeyEnv := some "k1"
    googleApiKeyEnv := none
    uploadPdfResult := .ok { name := "files/pdf1", uri := "uri-pdf-1" }
    uploadPosterResult := .error "network down"
    generateResult := .ok [RPart.image "img-bytes"]
    deletePdfOk := true
    deletePosterOk := true }

/-- A Gemini environment in which the generation call raises a non-credential
server error. -/
def genFailEnv : GenEnv :=
  { geminiApiKeyEnv := some "k1"
    googleApiKeyEnv := none
    uploadPdfResult := .ok { name := "files/pdf1", uri := "uri-pdf-1" }
    uploadPosterResult := .ok { name := "files/img1", uri := "uri-img-1" }
    generateResult := .error { ty := "ServerError", msg := "backend unavailable" }
    deletePdfOk := true
    deletePosterOk := true }

/-- A CLI environment whose download always succeeds and whose Gemini calls all
succeed; no files exist yet. -/
def okCliEnv : CliEnv :=
  { fs := []
    download := fun i =>
      .ok ("/tmp/" ++ i ++ ".pdf", { title := some "T", authors := ["A"], summary := some "S" })
    genEnvOf := fun _ => okGenEnv }

/-- Single-identifier CLI arguments requesting the Flash model with a
non-default resolution. -/
def flashArgs : Args :=
  { arxiv_ids := ["1706.03762"], orientation := "landscape", output_dir := "outputs"
    output := none, model := "flash", resolution := "4K", language := "English"
    side_panel := none, whatif := none, api_key := none, verbose := false }

/-- A CLI environment where downloading `2222.00002` fails with a not-found
error and every other identifier succeeds end to end. -/
def batchEnv : CliEnv :=
  { fs := []
    download := fun i =>
      if i = "2222.00002" then
        .error { ty := "ValueError", msg := "Paper with ID 2222.00002 not found on arXiv" }
      else
        .ok ("/tmp/" ++ i ++ ".pdf", { title := some "T", authors := ["A"], summary := some "S" })
    genEnvOf := fun _ => okGenEnv }

/-- A batch of three identifiers, of which `batchEnv` fails the second. -/
def batchArgs : Args :=
  { arxiv_ids := ["1111.00001", "2222.00002", "3333.00003"], orientation := "landscape"
    output_dir := "outputs", output := none, model := "pro", resolution := "2K"
    language := "English", side_panel := none, whatif := none, api_key := some "k"
    verbose := false }

/-- What-if arguments with a custom `--output` filename. -/
def whatifOutputArgs : Args :=
  { arxiv_ids := ["1706.03762"], orientation := "landscape", output_dir := "outputs"
    output := some "custom.png", model := "pro", resolution := "2K", language := "English"
    side_panel := none, whatif := some "new idea", api_key := some "k", verbose := false }

/-- What-if arguments with the default output naming. -/
def whatifNoOutputArgs : Args :=
  { arxiv_ids := ["1706.03762"], orientation := "landscape", output_dir := "outputs"
    output := none, model := "pro", resolution := "2K", language := "English"
    side_panel := none, whatif := some "new idea", api_key := some "k", verbose := false }

/-! ## Helper lemmas -/

theorem mem_dedupFirstAux (l : List String) :
    ∀ (seen : List String) (a : String), a ∈ dedupFirstAux seen l → a ∈ l := by
  induction l with
  | nil => intro seen a h; simp [dedupFirstAux] at h
  | cons x xs ih =>
    intro seen a h
    by_cases hx : x ∈ seen
    · simp only [dedupFirstAux, if_pos hx] at h
      exact List.mem_cons_of_mem _ (ih seen a h)
    · simp only [dedupFirstAux, if_neg hx, List.mem_cons] at h
      rcases h with h | h
      · simp [h]
      · exact List.mem_cons_of_mem _ (ih _ a h)

theorem dedupFirstAux_sublist (l : List String) :
    ∀ seen : List String, (dedupFirstAux seen l).Sublist l := by
  induction l with
  | nil => intro seen; simp [dedupFirstAux]
  | cons x xs ih =>
    intro seen
    by_cases hx : x ∈ seen
    · simp only [dedupFirstAux, if_pos hx]
      exact (ih seen).trans (List.sublist_cons_self x xs)
    · simp only [dedupFirstAux, if_neg hx]
      exact (ih (x :: seen)).cons₂ x

theorem dedupFirstAux_not_mem_seen (l : List String) :
    ∀ (seen : List String) (a : String), a ∈ dedupFirstAux seen l → a ∉ seen := by
  induction l with
  | nil => intro seen a h; simp [dedupFirstAux] at h
  | cons x xs ih =>
    intro seen a h
    by_cases hx : x ∈ seen
    · simp only [dedupFirstAux, if_pos hx] at h
      exact ih seen a h
    · simp only [dedupFirstAux, if_neg hx, List.mem_cons] at h
      rcases h with rfl | h
      · exact hx
      · intro hseen
        exact ih (x :: seen) a h (List.mem_cons_of_mem _ hseen)

theorem dedupFirstAux_nodup (l : List String) :
    ∀ seen : List String, (dedupFirstAux seen l).Nodup := by
  induction l with
  | nil => intro seen; simp [dedupFirstAux]
  | cons x xs ih =>
    intro seen
    by_cases hx : x ∈ seen
    · simpa only [dedupFirstAux, if_pos hx] using ih seen
    · simp only [dedupFirstAux, if_neg hx]
      refine List.nodup_cons.2 ⟨fun hmem => ?_, ih (x :: seen)⟩
      exact dedupFirstAux_not_mem_seen xs (x :: seen) x hmem (List.mem_cons_self x seen)

/-- An infix that is present as a contiguous factor is found by `listInfixOf`. -/
theorem listInfixOf_of_isInfix {sub s : List Char} (h : sub <:+: s) :
    listInfixOf sub s = true := by
  induction s with
  | nil =>
    rcases h with ⟨p, t, hp⟩
    have : sub = [] := by
      rcases List.append_eq_nil.1 (List.append_eq_nil.1 hp).1 with ⟨_, h2⟩
      exact h2
    simp [listInfixOf, this]
  | cons c cs ih =>
    rcases List.infix_cons_iff.1 h with hpre | hinf
    · simp [listInfixOf, List.isPrefixOf_iff_prefix.2 hpre]
    · simp [listInfixOf, ih hinf]

/-- Python substring containment holds for any explicit factorization. -/
theorem pyIn_of_factorization (sub pre post : String) :
    pyIn sub (pre ++ sub ++ post) = true := by
  apply listInfixOf_of_isInfix
  refine ⟨pre.toList, post.toList, ?_⟩
  simp [String.toList, String.data_append]

theorem filter_map_pair (ids : List String) (f : String → IdOutcome) (p : IdOutcome → Bool) :
    ((ids.map (fun i => (i, f i))).filter (fun q => p q.2)).map (fun q => q.1) =
      ids.filter (fun i => p (f i)) := by
  induction ids with
  | nil => rfl
  | cons x xs ih =>
    by_cases h : p (f x) <;> simp [h, ih]

theorem filter_map_pair_length (ids : List String) (f : String → IdOutcome)
    (p : IdOutcome → Bool) :
    ((ids.map (fun i => (i, f i))).filter (fun q => p q.2)).length =
      (ids.filter (fun i => p (f i))).length := by
  have h := congrArg List.length (filter_map_pair ids f p)
  simpa using h

/-! ## Claims -/

/-- C2: for every (orientation, side-panel-present) pair the derived aspect
ratio equals the table value - panel present and landscape gives 21:9, panel
present and portrait gives 4:3, no panel and landscape gives 3:2, no panel and
portrait gives 3:4 - and for every orientation string whatsoever the derivation
stays inside the fixed ratio set accepted by the image service. -/
theorem aspect_ratio_matches_table (sp : Option String) :
    (strTruthy sp = true →
      deriveAspectRatio sp "landscape" = "21:9" ∧ deriveAspectRatio sp "portrait" = "4:3") ∧
    (strTruthy sp = false →
      deriveAspectRatio sp "landscape" = "3:2" ∧ deriveAspectRatio sp "portrait" = "3:4") ∧
    (∀ orientation : String,
      deriveAspectRatio sp orientation ∈
        (["1:1", "2:3", "3:2", "3:4", "4:3", "4:5", "5:4", "9:16", "16:9", "21:9"] : List String)) := by
  refine ⟨fun h => ?_, fun h => ?_, fun o => ?_⟩
  · constructor <;> simp [deriveAspectRatio, h]
  · constructor <;> simp [deriveAspectRatio, h]
  · by_cases h : strTruthy sp <;> by_cases ho : o = "landscape" <;>
      simp [deriveAspectRatio, h, ho]

/-- C2 witness: the table at two concrete corners. -/
theorem aspect_ratio_matches_table_witness :
    deriveAspectRatio (some "qa") "landscape" = "21:9" ∧
    deriveAspectRatio none "portrait" = "3:4" :=
  ⟨((aspect_ratio_matches_table (some "qa")).1 (by decide)).1,
   ((aspect_ratio_matches_table none).2.1 (by decide)).2⟩

/-- C3: the derived generation configuration for the flash tier never carries an
image-size field while the pro tier carries exactly the requested resolution;
requesting a non-default resolution with flash yields the caller-visible warning
and main still processes every identifier (a warning, not an error). -/
theorem flash_resolution_handling :
    (∀ resolution aspect_ratio : String,
      (imageConfigParams "flash" resolution aspect_ratio).imageSize = none ∧
      (imageConfigParams "pro" resolution aspect_ratio).imageSize = some resolution) ∧
    (∀ args : Args, args.model = "flash" → args.resolution ≠ "2K" →
      resolutionWarnings args = [flashResolutionWarning]) ∧
    (∀ (env : CliEnv) (args : Args),
      ¬((args.arxiv_ids.map normalize_arxiv_id).length > 1 ∧ args.output.isSome) →
      ¬(strTruthy args.whatif ∧ (args.arxiv_ids.map normalize_arxiv_id).length > 1) →
      (main env args).warnings = resolutionWarnings args ∧
      (main env args).processed =
        (args.arxiv_ids.map normalize_arxiv_id).map (fun i => (i, processId env args i))) := by
  refine ⟨fun r a => ⟨?_, ?_⟩, fun args h1 h2 => ?_, fun env args h1 h2 => ?_⟩
  · simp [imageConfigParams]
  · simp [imageConfigParams]
  · simp [resolutionWarnings, h1, h2]
  · simp only [List.length_map] at h1 h2
    simp [main, h1, h2]

/-- C3 witness: flash with 4K yields no image size but the warning; pro carries
the resolution; the single-identifier run is still processed. -/
theorem flash_resolution_handling_witness :
    (imageConfigParams "flash" "4K" "3:2").imageSize = none ∧
    (imageConfigParams "pro" "4K" "3:2").imageSize = some "4K" ∧
    resolutionWarnings flashArgs = [flashResolutionWarning] ∧
    (main okCliEnv flashArgs).warnings = resolutionWarnings flashArgs := by
  refine ⟨(flash_resolution_handling.1 "4K" "3:2").1,
    (flash_resolution_handling.1 "4K" "3:2").2,
    flash_resolution_handling.2.1 flashArgs rfl (by decide),
    (flash_resolution_handling.2.2 okCliEnv flashArgs (by decide) (by decide)).1⟩

/-- C5: key-concept extraction is deterministic, its output list never contains
a stoplist word, has at most 5 entries each longer than 3 characters,
deduplicated preserving first-seen order (an order-preserving duplicate-free
selection from the filtered matches), and a text yielding zero concepts
produces exactly the literal fallback string. -/
theorem extract_key_concepts_spec (text : String) :
    extract_key_concepts text 5 = extract_key_concepts text 5 ∧
    (unique_concepts text 5).length ≤ 5 ∧
    (∀ w, w ∈ unique_concepts text 5 → w ∉ common_words ∧ 3 < w.length) ∧
    (unique_concepts text 5).Nodup ∧
    (unique_concepts text 5).Sublist ((findCapitalizedPhrases text).filter conceptKeep) ∧
    (unique_concepts text 5 = [] →
      extract_key_concepts text 5 = "Research, Machine Learning, Deep Learning") ∧
    (unique_concepts text 5 ≠ [] →
      extract_key_concepts text 5 = joinWith ", " (unique_concepts text 5)) := by
  refine ⟨rfl, ?_, ?_, ?_, ?_, ?_, ?_⟩
  · exact List.length_take_le 5 _
  · intro w hw
    have hw2 : w ∈ (findCapitalizedPhrases text).filter conceptKeep :=
      mem_dedupFirstAux _ _ _ (List.mem_of_mem_take hw)
    have hw3 : conceptKeep w = true := (List.mem_filter.1 hw2).2
    simpa [conceptKeep] using hw3
  · exact (List.take_sublist _ _).nodup (dedupFirstAux_nodup _ _)
  · exact (List.take_sublist _ _).trans (dedupFirstAux_sublist _ _)
  · intro h
    simp [extract_key_concepts, h]
  · intro h
    simp [extract_key_concepts, h]

/-- C5 witness: on a concrete abstract the extracted concepts obey the stoplist
and length bounds, and the empty abstract yields the literal fallback. -/
theorem extract_key_concepts_spec_witness :
    ("Deep Learning" ∉ common_words ∧ 3 < "Deep Learning".length) ∧
    extract_key_concepts "" 5 = "Research, Machine Learning, Deep Learning" :=
  ⟨(extract_key_concepts_spec "The Transformer uses Deep Learning.").2.2.1
      "Deep Learning" (by decide),
   (extract_key_concepts_spec "").2.2.2.2.2.1 (by decide)⟩

/-- C7: when the remote generation call raises an error whose message contains a
credential marker (substring match), the orchestrator re-raises a distinct
ValueError whose message preserves the original detail; any other generation
error is propagated unchanged (same exception type, same message). -/
theorem generation_error_reclassified
    (env : GenEnv) (pdf_path : String) (paper_info : PaperInfo)
    (orientation resolution model language : String)
    (side_panel whatif_text existing_poster_path api_key : Option String)
    (output_path : String) (e : PyExn) (hdl g : FileHandle)
    (hkey : strTruthy (resolvedApiKey api_key env) = true)
    (hmodel : model = "pro" ∨ model = "flash")
    (hpdf : env.uploadPdfResult = .ok hdl)
    (hposter : strTruthy existing_poster_path = false ∨ env.uploadPosterResult = .ok g)
    (hgen : env.generateResult = .error e) :
    (generate_poster env pdf_path paper_info orientation resolution model language
        side_panel whatif_text existing_poster_path api_key output_path).result =
      (if isApiKeyError e.msg then
        Except.error ⟨"ValueError",
          "API key error: " ++ e.msg ++
            "\nPlease check that your GEMINI_API_KEY or GOOGLE_API_KEY is valid and not expired."⟩
       else Except.error e) ∧
    pyIn e.msg ("API key error: " ++ e.msg ++
      "\nPlease check that your GEMINI_API_KEY or GOOGLE_API_KEY is valid and not expired.") = true := by
  constructor
  · by_cases hex : strTruthy existing_poster_path
    · rcases hposter with hf | hg
      · rw [hf] at hex; exact absurd hex (by simp)
      · rcases hmodel with rfl | rfl <;>
          simp [generate_poster, generateContentStep, hkey, hpdf, hex, hg, hgen]
    · simp only [Bool.not_eq_true] at hex
      rcases hmodel with rfl | rfl <;>
        simp [generate_poster, generateContentStep, hkey, hpdf, hex, hgen]
  · exact pyIn_of_factorization e.msg "API key error: "
      "\nPlease check that your GEMINI_API_KEY or GOOGLE_API_KEY is valid and not expired."

/-- C7 witness: a concrete non-credential server error is propagated unchanged. -/
theorem generation_error_reclassified_witness :
    (generate_poster genFailEnv "paper.pdf" samplePaperInfo "landscape" "2K" "pro" "English"
        none none none none "out.png").result =
      Except.error { ty := "ServerError", msg := "backend unavailable" } := by
  have h := generation_error_reclassified genFailEnv "paper.pdf" samplePaperInfo
    "landscape" "2K" "pro" "English" none none none none "out.png"
    { ty := "ServerError", msg := "backend unavailable" }
    { name := "files/pdf1", uri := "uri-pdf-1" } { name := "files/pdf1", uri := "uri-pdf-1" }
    (by decide) (Or.inl rfl) rfl (Or.inl rfl) rfl
  rw [h.1]
  have : isApiKeyError "backend unavailable" = false := by decide
  simp [this]

/-- The `while` scan returns the first free number at or after its start. -/
theorem firstFreeVariant_first_free (fs : List String) (mkPath : Nat → String) :
    ∀ (fuel start n : Nat), firstFreeVariant fs mkPath fuel start = some n →
      mkPath n ∉ fs ∧ start ≤ n ∧ ∀ m, start ≤ m → m < n → mkPath m ∈ fs := by
  intro fuel
  induction fuel with
  | zero => intro start n h; simp [firstFreeVariant] at h
  | succ k ih =>
    intro start n h
    by_cases hm : mkPath start ∈ fs
    · simp only [firstFreeVariant, if_pos hm] at h
      obtain ⟨h1, h2, h3⟩ := ih (start + 1) n h
      refine ⟨h1, by omega, fun m hm1 hm2 => ?_⟩
      rcases Nat.eq_or_lt_of_le hm1 with rfl | hlt
      · exact hm
      · exact h3 m hlt hm2
    · simp only [firstFreeVariant, if_neg hm] at h
      cases h
      exact ⟨hm, Nat.le_refl _, fun m hm1 hm2 => by omega⟩

/-- C9: what-if variant numbering targets the first unused `_var_N` suffix with
N starting at 1: whenever the scan selects N, that filename is free and every
smaller number from 1 up is taken; with `_var_1` and `_var_2` existing the
computed path is `_var_3`, and with no existing variant it is `_var_1`. -/
theorem variant_numbering
    : (∀ (fs : List String) (mkPath : Nat → String) (n : Nat),
        firstFreeVariant fs mkPath (fs.length + 1) 1 = some n →
        mkPath n ∉ fs ∧ 1 ≤ n ∧ ∀ m, 1 ≤ m → m < n → mkPath m ∈ fs) ∧
      computeOutputPath
        ["outputs/poster_1706.03762_landscape_english_nopanel.png",
         "outputs/poster_1706.03762_landscape_english_nopanel_var_1.png",
         "outputs/poster_1706.03762_landscape_english_nopanel_var_2.png"]
        whatifNoOutputArgs "1706.03762" "english" "nopanel" =
        .ok "outputs/poster_1706.03762_landscape_english_nopanel_var_3.png" ∧
      computeOutputPath
        ["outputs/poster_1706.03762_landscape_english_nopanel.png"]
        whatifNoOutputArgs "1706.03762" "english" "nopanel" =
        .ok "outputs/poster_1706.03762_landscape_english_nopanel_var_1.png" := by
  refine ⟨fun fs mkPath n h => firstFreeVariant_first_free fs mkPath _ 1 n h, ?_, ?_⟩
  · decide
  · decide

/-- C9 witness: the scan characterization applied at the concrete 3-file listing. -/
theorem variant_numbering_witness :
    "outputs/poster_1706.03762_landscape_english_nopanel_var_3.png" ∉
      ["outputs/poster_1706.03762_landscape_english_nopanel.png",
       "outputs/poster_1706.03762_landscape_english_nopanel_var_1.png",
       "outputs/poster_1706.03762_landscape_english_nopanel_var_2.png"] ∧
    "outputs/poster_1706.03762_landscape_english_nopanel_var_1.png" ∈
      ["outputs/poster_1706.03762_landscape_english_nopanel.png",
       "outputs/poster_1706.03762_landscape_english_nopanel_var_1.png",
       "outputs/poster_1706.03762_landscape_english_nopanel_var_2.png"] := by
  have h := variant_numbering.1
    ["outputs/poster_1706.03762_landscape_english_nopanel.png",
     "outputs/poster_1706.03762_landscape_english_nopanel_var_1.png",
     "outputs/poster_1706.03762_landscape_english_nopanel_var_2.png"]
    (fun n => pathJoin "outputs"
      (variantFilename "1706.03762" "landscape" "english" "nopanel" n))
    3 (by decide)
  refine ⟨?_, ?_⟩
  · have h1 := h.1
    revert h1
    decide
  · have h2 := h.2.2 1 (by decide) (by decide)
    revert h2
    decide

/-- C8: for every batch accepted by the upfront validations, each identifier is
processed (in order) regardless of other identifiers' failures, the success
count is the number of identifiers whose processing succeeded, and the failed
list is exactly the identifiers whose processing failed, in input order -
per-identifier failures are caught at the driver boundary and never stop the
batch. -/
theorem batch_failures_isolated (env : CliEnv) (args : Args)
    (h1 : ¬(args.arxiv_ids.length > 1 ∧ args.output.isSome))
    (h2 : ¬(strTruthy args.whatif ∧ args.arxiv_ids.length > 1)) :
    (main env args).processed =
      (args.arxiv_ids.map normalize_arxiv_id).map (fun i => (i, processId env args i)) ∧
    (main env args).successCount =
      ((args.arxiv_ids.map normalize_arxiv_id).filter
        (fun i => (processId env args i).ok)).length ∧
    (main env args).failedIds =
      (args.arxiv_ids.map normalize_arxiv_id).filter (fun i => !(processId env args i).ok) := by
  have h1'' : ¬((args.arxiv_ids.map normalize_arxiv_id).length > 1 ∧ args.output.isSome = true) := by
    simpa using h1
  have h2'' : ¬(strTruthy args.whatif = true ∧ (args.arxiv_ids.map normalize_arxiv_id).length > 1) := by
    simpa using h2
  simp only [main, if_neg h1'', if_neg h2'']
  exact ⟨trivial,
    filter_map_pair_length (args.arxiv_ids.map normalize_arxiv_id) (processId env args)
      (fun o => o.ok),
    filter_map_pair (args.arxiv_ids.map normalize_arxiv_id) (processId env args)
      (fun o => !o.ok)⟩

/-- C8 witness: in the concrete batch of three identifiers where only the second
fails, the summary reports 2 successes and lists the second identifier as
failed, and the third identifier is still processed. -/
theorem batch_failures_isolated_witness :
    (main batchEnv batchArgs).successCount = 2 ∧
    (main batchEnv batchArgs).failedIds = ["2222.00002"] ∧
    (main batchEnv batchArgs).processed.map (fun p => p.1) =
      ["1111.00001", "2222.00002", "3333.00003"] ∧
    (processId batchEnv batchArgs "3333.00003").ok = true := by
  have h := batch_failures_isolated batchEnv batchArgs (by decide) (by decide)
  refine ⟨?_, ?_, ?_, by decide⟩
  · rw [h.2.1]; decide
  · rw [h.2.2]; decide
  · rw [h.1]; decide

/-- The remote-call trace of the generation-and-cleanup step, on every branch of
the generation outcome: the prior uploads, the single generation call, then the
best-effort deletions. -/
theorem generateContentStep_actions (env : GenEnv) (uploaded_pdf : FileHandle)
    (uploaded_poster : Option FileHandle)
    (api_model aspect_ratio orientation resolution model language : String)
    (side_panel whatif_text existing_poster_path : Option String)
    (output_path : String) (actsSoFar : List RemoteAction) :
    (generateContentStep env uploaded_pdf uploaded_poster api_model aspect_ratio
      orientation resolution model language side_panel whatif_text
      existing_poster_path output_path actsSoFar).actions =
    actsSoFar
    ++ [RemoteAction.generateContent api_model
          (requestContents uploaded_pdf uploaded_poster
            (posterPrompt orientation aspect_ratio resolution model language
              side_panel whatif_text existing_poster_path))
          ["TEXT", "IMAGE"] (imageConfigParams model resolution aspect_ratio)]
    ++ (RemoteAction.deleteFile uploaded_pdf.name ::
          (match uploaded_poster with
           | some up => [RemoteAction.deleteFile up.name]
           | none => [])) := by
  rfl

/-- C10: with a reference poster supplied but no what-if text, the reference
poster is still uploaded and wired into the request contents together with the
textual instruction identifying it as the existing poster, while the what-if
prompt section is omitted and the prompt is the same as with no reference at
all - the wiring depends only on `existing_poster_path`. -/
theorem reference_wiring_without_whatif
    (env : GenEnv) (pdf_path : String) (paper_info : PaperInfo)
    (orientation resolution model language : String)
    (side_panel api_key : Option String) (p output_path : String)
    (hpdf g : FileHandle)
    (hkey : strTruthy (resolvedApiKey api_key env) = true)
    (hmodel : model = "pro" ∨ model = "flash")
    (hu : env.uploadPdfResult = .ok hpdf)
    (hup : env.uploadPosterResult = .ok g)
    (hp : p ≠ "") (huri : g.uri ≠ "") :
    RemoteAction.uploadFile p "image/png" ∈
      (generate_poster env pdf_path paper_info orientation resolution model language
        side_panel none (some p) api_key output_path).actions ∧
    (∀ mdl cs mods cfg,
      RemoteAction.generateContent mdl cs mods cfg ∈
        (generate_poster env pdf_path paper_info orientation resolution model language
          side_panel none (some p) api_key output_path).actions →
      cs = [ContentPart.fileData hpdf.uri "application/pdf",
            ContentPart.fileData g.uri "image/png",
            ContentPart.text referenceInstruction,
            ContentPart.text (posterPrompt orientation
              (deriveAspectRatio side_panel orientation) resolution model language
              side_panel none (some p))]) ∧
    whatifSection none = "" ∧
    posterPrompt orientation (deriveAspectRatio side_panel orientation) resolution model
        language side_panel none (some p) =
      posterPrompt orientation (deriveAspectRatio side_panel orientation) resolution model
        language side_panel none none := by
  have hex : strTruthy (some p) = true := by simp [strTruthy, hp]
  have huri' : strTruthy (some g.uri) = true := by simp [strTruthy, huri]
  have hact : (generate_poster env pdf_path paper_info orientation resolution model language
      side_panel none (some p) api_key output_path).actions =
      [RemoteAction.uploadFile pdf_path "application/pdf",
       RemoteAction.uploadFile p "image/png"]
      ++ [RemoteAction.generateContent
            (if model = "pro" then "gemini-3-pro-image-preview" else "gemini-2.5-flash-image")
            (requestContents hpdf (some g)
              (posterPrompt orientation (deriveAspectRatio side_panel orientation)
                resolution model language side_panel none (some p)))
            ["TEXT", "IMAGE"]
            (imageConfigParams model resolution (deriveAspectRatio side_panel orientation))]
      ++ [RemoteAction.deleteFile hpdf.name, RemoteAction.deleteFile g.name] := by
    rcases hmodel with rfl | rfl <;>
      simp [generate_poster, hkey, hu, hup, hex, generateContentStep_actions]
  refine ⟨?_, ?_, rfl, rfl⟩
  · rw [hact]; simp
  · intro mdl cs mods cfg hmem
    rw [hact] at hmem
    simp [requestContents, huri'] at hmem
    exact hmem.2.1

/-- C10 witness: concrete run with a reference poster and no what-if text. -/
theorem reference_wiring_without_whatif_witness :
    RemoteAction.uploadFile "outputs/base.png" "image/png" ∈
      (generate_poster okGenEnv "paper.pdf" samplePaperInfo "landscape" "2K" "pro" "English"
        none none (some "outputs/base.png") none "out.png").actions ∧
    whatifSection none = "" := by
  have h := reference_wiring_without_whatif okGenEnv "paper.pdf" samplePaperInfo
    "landscape" "2K" "pro" "English" none none "outputs/base.png" "out.png"
    { name := "files/pdf1", uri := "uri-pdf-1" } { name := "files/img1", uri := "uri-img-1" }
    (by decide) (Or.inl rfl) rfl rfl (by decide) (by decide)
  exact ⟨h.1, h.2.2.1⟩

/-- C1 counterexample: when the PDF upload succeeds but the reference-poster
upload fails (a failure path of step 3), the orchestrator raises immediately -
the trace contains the two upload attempts and no deletion at all, so the
successfully uploaded PDF is never cleaned up. -/
theorem pdf_delete_skipped_on_poster_upload_failure :
    (generate_poster posterUploadFailEnv "paper.pdf" samplePaperInfo "landscape" "2K" "pro"
        "English" none none (some "outputs/base.png") none "out.png").actions =
      [RemoteAction.uploadFile "paper.pdf" "application/pdf",
       RemoteAction.uploadFile "outputs/base.png" "image/png"] ∧
    ((generate_poster posterUploadFailEnv "paper.pdf" samplePaperInfo "landscape" "2K" "pro"
        "English" none none (some "outputs/base.png") none "out.png").actions.all
      (fun a => !a.isDeleteFile)) = true ∧
    (generate_poster posterUploadFailEnv "paper.pdf" samplePaperInfo "landscape" "2K" "pro"
        "English" none none (some "outputs/base.png") none "out.png").result =
      Except.error
        { ty := "RuntimeError"
          msg := "Failed to upload existing poster image: network down" } :=
  ⟨rfl, rfl, rfl⟩

/-- C1 amended: cleanup of every successfully uploaded asset is attempted before
the orchestrator returns on the success path and on every outcome of the
generation call (step 4), with deletion outcomes never influencing the result -
but this guarantee covers only runs in which all requested uploads succeeded;
when the reference-poster upload fails the PDF deletion is skipped (see the
counterexample). -/
theorem cleanup_attempted_when_uploads_succeed
    (env : GenEnv) (pdf_path : String) (paper_info : PaperInfo)
    (orientation resolution model language : String)
    (side_panel whatif_text existing_poster_path api_key : Option String)
    (output_path : String) (hpdf : FileHandle)
    (hkey : strTruthy (resolvedApiKey api_key env) = true)
    (hmodel : model = "pro" ∨ model = "flash")
    (hu : env.uploadPdfResult = .ok hpdf) :
    (strTruthy existing_poster_path = false →
      RemoteAction.deleteFile hpdf.name ∈
        (generate_poster env pdf_path paper_info orientation resolution model language
          side_panel whatif_text existing_poster_path api_key output_path).actions) ∧
    (∀ g : FileHandle, strTruthy existing_poster_path = true →
      env.uploadPosterResult = .ok g →
      RemoteAction.deleteFile hpdf.name ∈
        (generate_poster env pdf_path paper_info orientation resolution model language
          side_panel whatif_text existing_poster_path api_key output_path).actions ∧
      RemoteAction.deleteFile g.name ∈
        (generate_poster env pdf_path paper_info orientation resolution model language
          side_panel whatif_text existing_poster_path api_key output_path).actions) ∧
    (∀ b b' : Bool,
      generate_poster { env with deletePdfOk := b, deletePosterOk := b' }
          pdf_path paper_info orientation resolution model language
          side_panel whatif_text existing_poster_path api_key output_path =
        generate_poster env pdf_path paper_info orientation resolution model language
          side_panel whatif_text existing_poster_path api_key output_path) := by
  refine ⟨fun hex => ?_, fun g hex hg => ?_, fun b b' => rfl⟩
  · rcases hmodel with rfl | rfl <;>
      simp [generate_poster, hkey, hu, hex, generateContentStep_actions]
  · constructor <;>
      rcases hmodel with rfl | rfl <;>
      simp [generate_poster, hkey, hu, hex, hg, generateContentStep_actions]

/-- C1 witness: in a fully successful concrete run with a reference poster, both
uploaded assets are deleted. -/
theorem cleanup_attempted_when_uploads_succeed_witness :
    RemoteAction.deleteFile "files/pdf1" ∈
      (generate_poster okGenEnv "paper.pdf" samplePaperInfo "landscape" "2K" "pro" "English"
        none none (some "outputs/base.png") none "out.png").actions ∧
    RemoteAction.deleteFile "files/img1" ∈
      (generate_poster okGenEnv "paper.pdf" samplePaperInfo "landscape" "2K" "pro" "English"
        none none (some "outputs/base.png") none "out.png").actions := by
  have h := (cleanup_attempted_when_uploads_succeed okGenEnv "paper.pdf" samplePaperInfo
    "landscape" "2K" "pro" "English" none none (some "outputs/base.png") none "out.png"
    { name := "files/pdf1", uri := "uri-pdf-1" }
    (by decide) (Or.inl rfl) rfl).2.1
    { name := "files/img1", uri := "uri-img-1" } (by decide) rfl
  exact h

/-- The result (return or exception) of the generation-and-cleanup step depends
only on the environment's generation outcome and on `output_path`: never on the
prompt, the model strings, the side panel or the uploaded handles. -/
theorem generateContentStep_result (env : GenEnv) (up up' : FileHandle)
    (upo upo' : Option FileHandle)
    (am ar o r m l am' ar' o' r' m' l' : String)
    (sp w e sp' w' e' : Option String) (out : String)
    (acts acts' : List RemoteAction) :
    (generateContentStep env up upo am ar o r m l sp w e out acts).result =
    (generateContentStep env up' upo' am' ar' o' r' m' l' sp' w' e' out acts').result := rfl

/-- Implicit-argument form of `generateContentStep_result`, convenient for
closing goals by unification. -/
theorem generateContentStepResultExt {env : GenEnv} {up up' : FileHandle}
    {upo upo' : Option FileHandle}
    {am ar o r m l am' ar' o' r' m' l' : String}
    {sp w e sp' w' e' : Option String} {out : String}
    {acts acts' : List RemoteAction} :
    (generateContentStep env up upo am ar o r m l sp w e out acts).result =
    (generateContentStep env up' upo' am' ar' o' r' m' l' sp' w' e' out acts').result :=
  generateContentStep_result env up up' upo upo' am ar o r m l am' ar' o' r' m' l'
    sp w e sp' w' e' out acts acts'

/-- C4 counterexample: an unrecognized truthy side-panel value does not behave
exactly as "no panel" - the generation request carries the side-by-side aspect
ratio 21:9 where the no-panel request carries 3:2. -/
theorem unrecognized_panel_differs_from_no_panel :
    (generate_poster okGenEnv "paper.pdf" samplePaperInfo "landscape" "2K" "pro" "English"
        (some "sidebar") none none none "out.png").genConfigs =
      [{ aspectRatio := "21:9", imageSize := some "2K" }] ∧
    (generate_poster okGenEnv "paper.pdf" samplePaperInfo "landscape" "2K" "pro" "English"
        none none none none "out.png").genConfigs =
      [{ aspectRatio := "3:2", imageSize := some "2K" }] :=
  ⟨rfl, rfl⟩

/-- C4 amended: for every side-panel value other than "qa", all Q&A instruction
text is omitted and the layout text degenerates to the full-width poster (all
four side-panel prompt components and both qa-conditional fragments equal the
no-panel ones), and no error arises from the unrecognized value (the orchestrator
result is identical to the no-panel result in every environment); however a
truthy unrecognized value still selects the side-by-side aspect ratios and the
side-panel language clause, so the request is not exactly the no-panel request. -/
theorem unrecognized_panel_degenerates (p : String) (hp : p ≠ "qa") :
    sidePanelPieces (some p) = sidePanelPieces none ∧
    qaContentBlock (some p) = "" ∧
    qaChatStyleLine (some p) = "" ∧
    finalEssenceLine (some p) = finalEssenceLine none ∧
    (∀ (env : GenEnv) (pdf_path : String) (paper_info : PaperInfo)
       (orientation resolution model language : String)
       (whatif_text existing_poster_path api_key : Option String) (output_path : String),
      (generate_poster env pdf_path paper_info orientation resolution model language (some p)
        whatif_text existing_poster_path api_key output_path).result =
      (generate_poster env pdf_path paper_info orientation resolution model language none
        whatif_text existing_poster_path api_key output_path).result) ∧
    (p ≠ "" →
      deriveAspectRatio (some p) "landscape" = "21:9" ∧
      deriveAspectRatio (some p) "portrait" = "4:3" ∧
      languagePanelClause (some p) = " and side panel content") := by
  refine ⟨?_, ?_, ?_, ?_, ?_, fun hne => ?_⟩
  · simp [sidePanelPieces, hp]
  · simp [qaContentBlock, hp]
  · simp [qaChatStyleLine, hp]
  · simp [finalEssenceLine, hp]
  · intro env pdf_path paper_info orientation resolution model language w e k out
    simp only [generate_poster]
    split
    · rfl
    · split
      · rfl
      · cases env.uploadPdfResult with
        | error e' => rfl
        | ok up =>
          dsimp only
          by_cases hex : strTruthy e = true
          · rw [if_pos hex, if_pos hex]
            cases env.uploadPosterResult with
            | error e2 => rfl
            | ok g => exact generateContentStepResultExt
          · rw [if_neg hex, if_neg hex]
            exact generateContentStepResultExt
  · have ht : strTruthy (some p) = true := by simp [strTruthy, hne]
    exact ⟨by simp [deriveAspectRatio, ht], by simp [deriveAspectRatio, ht],
      by simp [languagePanelClause, ht]⟩

/-- C4 witness: the amended claim at the concrete unrecognized value "sidebar". -/
theorem unrecognized_panel_degenerates_witness :
    sidePanelPieces (some "sidebar") = sidePanelPieces none ∧
    deriveAspectRatio (some "sidebar") "landscape" = "21:9" := by
  have h := unrecognized_panel_degenerates "sidebar" (by decide)
  exact ⟨h.1, (h.2.2.2.2.2 (by decide)).1⟩

/-- C6 counterexample: with a custom `--output` filename, an active what-if
request whose base poster is missing is NOT rejected - the existence check is
skipped, the orchestrator is invoked and remote calls are made, and the
identifier is not recorded as failed. -/
theorem whatif_with_custom_output_skips_check :
    pathJoin whatifOutputArgs.output_dir
      (baseFilename (cleanIdOf "1706.03762") whatifOutputArgs.orientation
        (langNormalized whatifOutputArgs.language)
        (sidePanelSuffix whatifOutputArgs.side_panel)) ∉ okCliEnv.fs ∧
    strTruthy whatifOutputArgs.whatif = true ∧
    (processId okCliEnv whatifOutputArgs "1706.03762").calls ≠ [] ∧
    (processId okCliEnv whatifOutputArgs "1706.03762").ok = true := by
  refine ⟨by decide, by decide, by decide, by decide⟩

/-- C6 amended: when a what-if request is active and no custom output filename
was supplied, a missing base poster makes the driver record the identifier as
failed with a descriptive message and perform zero remote calls; with a single
identifier the run exits with code 1 and that identifier as the only failure.
(With a custom `--output` the check is skipped entirely - see the
counterexample.) -/
theorem whatif_missing_base_blocks
    (env : CliEnv) (args : Args) (arxiv_id : String)
    (hw : strTruthy args.whatif = true)
    (hout : args.output = none)
    (hmiss : pathJoin args.output_dir
      (baseFilename (cleanIdOf arxiv_id) args.orientation (langNormalized args.language)
        (sidePanelSuffix args.side_panel)) ∉ env.fs) :
    processId env args arxiv_id =
      { ok := false
        errMsg := some ("Existing poster file not found: " ++
          pathJoin args.output_dir (baseFilename (cleanIdOf arxiv_id) args.orientation
            (langNormalized args.language) (sidePanelSuffix args.side_panel)))
        calls := [] } ∧
    (∀ raw : String, args.arxiv_ids = [raw] → normalize_arxiv_id raw = arxiv_id →
      (main env args).exitCode = 1 ∧
      (main env args).successCount = 0 ∧
      (main env args).failedIds = [arxiv_id]) := by
  have hpid : processId env args arxiv_id =
      { ok := false
        errMsg := some ("Existing poster file not found: " ++
          pathJoin args.output_dir (baseFilename (cleanIdOf arxiv_id) args.orientation
            (langNormalized args.language) (sidePanelSuffix args.side_panel)))
        calls := [] } := by
    simp [processId, computeOutputPath, hout, hw, hmiss]
  refine ⟨hpid, fun raw hids hn => ?_⟩
  simp [main, hids, hn, hpid]

/-- C6 witness: concrete single-identifier run with what-if, default naming and
no base poster on disk. -/
theorem whatif_missing_base_blocks_witness :
    processId okCliEnv whatifNoOutputArgs "1706.03762" =
      { ok := false
        errMsg := some
          "Existing poster file not found: outputs/poster_1706.03762_landscape_english_nopanel.png"
        calls := [] } ∧
    (main okCliEnv whatifNoOutputArgs).exitCode = 1 ∧
    (main okCliEnv whatifNoOutputArgs).failedIds = ["1706.03762"] := by
  have h := whatif_missing_base_blocks okCliEnv whatifNoOutputArgs "1706.03762"
    (by decide) rfl (by decide)
  have h2 := h.2 "1706.03762" rfl (by decide)
  refine ⟨?_, h2.1, h2.2.2⟩
  rw [h.1]
  decide

end ArxivPoster
